import Mathlib

/-!
Verification of the `LiftRand` environment
(`robosuite/environments/manipulation/lift_rand.py`).

The file shallowly embeds the numeric and scene-configuration logic of the
`LiftRand` class: the success detector `_check_success`, the reward function
`reward`, the table randomization steps `_apply_random_table_transformations`
and `_apply_random_table_rotation`, the material customization step
`_customize_table_material`, and the placement-initializer policy and robot
base placement of `_load_model`.  External collaborators from the host
framework (the axis-angle-to-quaternion conversion `axisangle2quat`, the
array formatter `array_to_string`, the grasp predicate `_check_grasp`) are
modelled as parameters or boolean inputs, mirroring that they live outside
this file.
-/

open Classical

/-- A 3-vector of reals, standing for the numpy 3-arrays used by the code. -/
structure Vec3 where
  x : ℝ
  y : ℝ
  z : ℝ

/-- Componentwise addition of numpy 3-arrays. -/
def Vec3.add (a b : Vec3) : Vec3 :=
  ⟨a.x + b.x, a.y + b.y, a.z + b.z⟩

/-- Componentwise subtraction of numpy 3-arrays. -/
def Vec3.sub (a b : Vec3) : Vec3 :=
  ⟨a.x - b.x, a.y - b.y, a.z - b.z⟩

/-- Euclidean norm, standing for `np.linalg.norm` on a 3-array. -/
noncomputable def Vec3.norm (v : Vec3) : ℝ :=
  Real.sqrt (v.x ^ 2 + v.y ^ 2 + v.z ^ 2)

/-- The slice of `LiftRand` state that the reward and success computations
read: the two configuration attributes set in `__init__`
(`self.reward_shaping`, `self.reward_scale`), the simulation quantities
(`self.sim.data.body_xpos[self.cube_body_id]`,
`self.sim.data.site_xpos[self.robots[0].eef_site_id]`,
`self.model.mujoco_arena.table_offset[2]`), and the result of the
host-provided grasp predicate `self._check_grasp(...)`. -/
structure LiftRandState where
  rewardShaping : Bool
  rewardScale : Option ℝ
  cubePos : Vec3
  gripperSitePos : Vec3
  tableOffsetZ : ℝ
  graspOk : Bool

/-- `LiftRand._check_success` (lines 564-575):
`cube_height > table_height + 0.04` where `cube_height` is the z-component
of the cube body position and `table_height` the stored arena table offset
z-component. -/
def check_success (s : LiftRandState) : Prop :=
  s.cubePos.z > s.tableOffsetZ + 0.04

/-- The value of the local variable `reward` in `LiftRand.reward`
(lines 251-268) just before the scaling step: starts at `0.0`, is set to
`2.25` on success, and when `self.reward_shaping` holds the reaching term
`1 - tanh(10 * dist)` is added, plus `0.25` when the grasp predicate
holds. -/
noncomputable def rewardUnscaled (s : LiftRandState) : ℝ :=
  let base : ℝ := if check_success s then 2.25 else 0
  if s.rewardShaping then
    let dist := Vec3.norm (Vec3.sub s.gripperSitePos s.cubePos)
    let reaching := 1 - Real.tanh (10 * dist)
    let withGrasp := if s.graspOk then (0.25 : ℝ) else 0
    base + reaching + withGrasp
  else base

/-- `LiftRand.reward` (lines 226-274): the accumulated reward, multiplied by
`self.reward_scale / 2.25` when `self.reward_scale is not None`. -/
noncomputable def reward (s : LiftRandState) : ℝ :=
  match s.rewardScale with
  | none => rewardUnscaled s
  | some scl => rewardUnscaled s * (scl / 2.25)

/-- `self.table_offset = np.array((0, 0, 0.8))` set in `__init__`
(line 183). -/
def table_offset : Vec3 := ⟨0, 0, 0.8⟩

/-- `LiftRand._apply_random_table_transformations` (lines 357-371): given
the uniform draws `random_x_offset` and `random_y_offset`, returns
`np.array(self.table_offset) + np.array([random_x_offset, random_y_offset, 0])`. -/
def apply_random_table_transformations (dx dy : ℝ) : Vec3 :=
  Vec3.add table_offset ⟨dx, dy, 0⟩

/-- The axis-angle vector built at line 388 of
`LiftRand._apply_random_table_rotation`:
`axis_angle = np.array([random_angle, 0, 0])` — the drawn angle is encoded
in the first component. -/
def rotationAxisAngle (randomAngle : ℝ) : Vec3 :=
  ⟨randomAngle, 0, 0⟩

/-- An XML element handled through `get`/`set` of string attributes, as the
code does with `arena.table_body` and `arena.table_visual`
(`xml.etree.ElementTree` elements). -/
structure XmlBody where
  attrs : String → Option String

/-- `element.set(key, value)`: updates one attribute, leaves the rest. -/
def XmlBody.setAttr (b : XmlBody) (k v : String) : XmlBody :=
  ⟨fun q => if q = k then some v else b.attrs q⟩

/-- An XML element created by `ET.Element(tag, attrib={...})` and appended
to the arena asset list. -/
structure XmlElement where
  tag : String
  attrib : List (String × String)

/-- The slice of the `TableArena` scene graph that
`_apply_random_table_rotation` and `_customize_table_material` touch:
`arena.table_body` (possibly `None`), the `arena.asset` list, and
`arena.table_visual`. -/
structure Arena where
  tableBody : Option XmlBody
  asset : List XmlElement
  tableVisual : XmlBody

/-- `LiftRand._apply_random_table_rotation` (lines 373-401).  The imported
collaborators `axisangle2quat` (from `robosuite.utils.transform_utils`) and
`array_to_string` (from `robosuite.utils.mjcf_utils`) are parameters, since
they are defined outside this file.  When `arena.table_body is not None`,
the code reads `current_pos = arena.table_body.get("pos")` into a local
that is never used again, and then sets the `"quat"` attribute to
`array_to_string(axisangle2quat(axis_angle))` with
`axis_angle = [random_angle, 0, 0]`. -/
def apply_random_table_rotation {Q : Type} (axisangle2quat : Vec3 → Q)
    (array_to_string : Q → String) (randomAngle : ℝ) (arena : Arena) : Arena :=
  match arena.tableBody with
  | none => arena
  | some body =>
      { arena with
        tableBody :=
          some (body.setAttr "quat"
            (array_to_string (axisangle2quat (rotationAxisAngle randomAngle)))) }

/-- The white material element created at lines 414-418:
`ET.Element("material", attrib={"name": "white_table_mat",
"reflectance": "0.5", "rgba": "1 1 1 1"})` — no texture reference. -/
def white_mat_element : XmlElement :=
  ⟨"material",
    [("name", "white_table_mat"), ("reflectance", "0.5"), ("rgba", "1 1 1 1")]⟩

/-- The cereal texture element created at lines 425-430. -/
def cereal_tex_element : XmlElement :=
  ⟨"texture",
    [("type", "2d"),
     ("file", "/home/tianchongj/workspace/script_robosuite_demos/robosuite_source/robosuite/models/assets/textures/cereal.png"),
     ("rgb1", "1 1 1"), ("name", "tex-cereal-table")]⟩

/-- The cereal material element created at lines 434-440, with 3x3 tiling. -/
def cereal_mat_element : XmlElement :=
  ⟨"material",
    [("name", "cereal_table_mat"), ("reflectance", "0.5"), ("texrepeat", "3 3"),
     ("texture", "tex-cereal-table"), ("texuniform", "true")]⟩

/-- `LiftRand._customize_table_material` (lines 403-444): when
`self.use_white_table_texture` holds, append the white material to
`arena.asset` and point the table visual at `"white_table_mat"`; otherwise
append the cereal texture and material and point it at
`"cereal_table_mat"`. -/
def customize_table_material (useWhiteTableTexture : Bool) (arena : Arena) : Arena :=
  if useWhiteTableTexture then
    { arena with
      asset := arena.asset ++ [white_mat_element],
      tableVisual := arena.tableVisual.setAttr "material" "white_table_mat" }
  else
    { arena with
      asset := arena.asset ++ [cereal_tex_element, cereal_mat_element],
      tableVisual := arena.tableVisual.setAttr "material" "cereal_table_mat" }

/-- Operations invoked on an already-supplied placement initializer
(`reset()` and `add_objects(...)`, lines 335-336). -/
inductive SamplerOp
  | reset
  | addObjects (objs : List String)
deriving DecidableEq

/-- The constructor arguments of the host `UniformRandomSampler` as passed
at lines 338-348 of `_load_model`. -/
structure UniformRandomSampler where
  name : String
  mujocoObjects : List String
  xRange : ℝ × ℝ
  yRange : ℝ × ℝ
  rotationArg : Option ℝ
  ensureObjectBoundaryInRange : Bool
  ensureValidPlacement : Bool
  referencePos : Vec3
  zOffset : ℝ

/-- The placement-initializer policy of `LiftRand._load_model`
(lines 334-348): when `self.placement_initializer is not None` (modelled by
the boolean `suppliedInitializer`), call `reset()` then
`add_objects(self.objects)` on it; otherwise construct a
`UniformRandomSampler` with the literal arguments of lines 338-348,
referenced to the randomized table offset. -/
def setup_placement_initializer (suppliedInitializer : Bool)
    (objects : List String) (randomizedTableOffset : Vec3) :
    List SamplerOp ⊕ UniformRandomSampler :=
  if suppliedInitializer then
    Sum.inl [SamplerOp.reset, SamplerOp.addObjects objects]
  else
    Sum.inr
      { name := "ObjectSampler"
        mujocoObjects := objects
        xRange := (-0.2, 0.2)
        yRange := (-0.2, 0.2)
        rotationArg := none
        ensureObjectBoundaryInRange := false
        ensureValidPlacement := true
        referencePos := randomizedTableOffset
        zOffset := 0.01 }

/-- A concrete dense-mode state: shaping on, scale 1, gripper exactly at the
cube, cube 5 cm above the table surface, grasp detected. -/
def denseState : LiftRandState :=
  ⟨true, some 1, ⟨0, 0, 0.85⟩, ⟨0, 0, 0.85⟩, 0.8, true⟩

/-- A concrete sparse-mode state: shaping off, scale 1, cube lifted. -/
def sparseState : LiftRandState :=
  ⟨false, some 1, ⟨0, 0, 0.85⟩, ⟨0, 0, 0.3⟩, 0.8, false⟩

/-- A table body element carrying only a `pos` attribute. -/
def posBody : XmlBody :=
  ⟨fun k => if k = "pos" then some "0 0 0.8" else none⟩

/-- An element with no attributes. -/
def emptyBody : XmlBody :=
  ⟨fun _ => none⟩

/-- A concrete arena whose table body is present. -/
def arenaWithTable : Arena :=
  ⟨some posBody, [], emptyBody⟩

set_option linter.unusedVariables false in
/-- The robot base placement of `_load_model` (line 284):
`xpos = self.robots[0].robot_model.base_xpos_offset["table"](0.8)` — the
host-provided map `base_xpos_offset["table"]` is a parameter, and it is
applied to the hard-coded constant `0.8`, not to `self.table_full_size[0]`
(the latter appears only in the commented-out line 283). -/
def robot_base_xpos (baseXposOffsetTable : ℝ → Vec3)
    (tableFullSize : ℝ × ℝ × ℝ) : Vec3 :=
  baseXposOffsetTable 0.8

/-- C1: the success detector returns true iff the object z-coordinate
strictly exceeds the stored table z plus 0.04; in particular
`success(0.85, 0.8)` holds, `success(0.83, 0.8)` fails, and the boundary
case `success(0.84, 0.8)` fails by strictness. -/
theorem check_success_iff_threshold :
    (∀ s : LiftRandState, check_success s ↔ s.cubePos.z > s.tableOffsetZ + 0.04)
    ∧ check_success ⟨false, none, ⟨0, 0, 0.85⟩, ⟨0, 0, 0⟩, 0.8, false⟩
    ∧ ¬ check_success ⟨false, none, ⟨0, 0, 0.83⟩, ⟨0, 0, 0⟩, 0.8, false⟩
    ∧ ¬ check_success ⟨false, none, ⟨0, 0, 0.84⟩, ⟨0, 0, 0⟩, 0.8, false⟩ := by
  refine ⟨fun s => Iff.rfl, ?_, ?_, ?_⟩ <;> norm_num [check_success]

/-- C2: with reward shaping enabled, the unscaled reward is the sparse
success term (2.25 or 0) plus the reaching term
`1 - tanh(10 * dist(gripper, cube))` plus the grasp bonus (0.25 or 0); the
shaping terms are added even when the success term is counted, and no
separate lifting term appears in the sum. -/
theorem reward_shaping_formula (s : LiftRandState) (h : s.rewardShaping = true) :
    rewardUnscaled s
      = (if check_success s then (2.25 : ℝ) else 0)
        + (1 - Real.tanh (10 * Vec3.norm (Vec3.sub s.gripperSitePos s.cubePos)))
        + (if s.graspOk then (0.25 : ℝ) else 0) := by
  simp only [rewardUnscaled, h, if_true]

/-- Witness for C2 at the concrete dense-mode state. -/
theorem reward_shaping_formula_witness :
    denseState.rewardShaping = true
    ∧ rewardUnscaled denseState
        = (if check_success denseState then (2.25 : ℝ) else 0)
          + (1 - Real.tanh (10 * Vec3.norm (Vec3.sub denseState.gripperSitePos denseState.cubePos)))
          + (if denseState.graspOk then (0.25 : ℝ) else 0) :=
  ⟨rfl, reward_shaping_formula denseState rfl⟩

/-- C3: in sparse mode with scale 1.0, the reward is exactly 1 on success
and exactly 0 otherwise. -/
theorem reward_sparse_mode (s : LiftRandState) (h1 : s.rewardShaping = false)
    (h2 : s.rewardScale = some 1) :
    reward s = if check_success s then (1 : ℝ) else 0 := by
  by_cases hs : check_success s
  · simp [reward, rewardUnscaled, h1, h2, hs]
    norm_num
  · simp [reward, rewardUnscaled, h1, h2, hs]

/-- Witness for C3 at the concrete sparse-mode state. -/
theorem reward_sparse_mode_witness :
    sparseState.rewardShaping = false
    ∧ sparseState.rewardScale = some 1
    ∧ reward sparseState = if check_success sparseState then (1 : ℝ) else 0 :=
  ⟨rfl, rfl, reward_sparse_mode sparseState rfl rfl⟩

/-- C4 counterexample: at the dense-mode state with scale 1 (shaping on,
gripper at the cube, cube lifted, grasp detected) the returned reward is
`3.5 * (1 / 2.25) = 14/9 > 1`, so the maximum achievable reward does not
equal `reward_scale`. -/
theorem reward_exceeds_scale :
    denseState.rewardScale = some 1 ∧ reward denseState = 14 / 9 ∧ ((14 : ℝ) / 9) > 1 := by
  have hsub : Vec3.sub denseState.gripperSitePos denseState.cubePos = ⟨0, 0, 0⟩ := by
    simp [denseState, Vec3.sub]
  have hnorm : Vec3.norm ⟨0, 0, 0⟩ = 0 := by
    simp [Vec3.norm]
  have hsucc : check_success denseState := by
    norm_num [check_success, denseState]
  have hun : rewardUnscaled denseState = 3.5 := by
    simp only [rewardUnscaled, if_pos hsucc, hsub, hnorm]
    norm_num [denseState, Real.tanh_zero]
  refine ⟨rfl, ?_, by norm_num⟩
  have hr : reward denseState = rewardUnscaled denseState * (1 / 2.25) := rfl
  rw [hr, hun]
  norm_num

/-- C4 (amended): if `reward_scale` is non-null the returned reward is the
unscaled total times `reward_scale / 2.25`, and if it is `None` the
unscaled total is returned unchanged; in sparse mode the reward is
`reward_scale` on success and 0 otherwise, so only there the maximum
achievable reward equals `reward_scale`. -/
theorem reward_scaling (s : LiftRandState) :
    (∀ c : ℝ, s.rewardScale = some c → reward s = rewardUnscaled s * (c / 2.25))
    ∧ (s.rewardScale = none → reward s = rewardUnscaled s)
    ∧ (∀ c : ℝ, s.rewardShaping = false → s.rewardScale = some c →
        reward s = if check_success s then c else 0) := by
  refine ⟨fun c hc => by simp [reward, hc], fun hc => by simp [reward, hc], ?_⟩
  intro c h1 hc
  by_cases hs : check_success s
  · simp [reward, rewardUnscaled, h1, hc, hs]
    field_simp
  · simp [reward, rewardUnscaled, h1, hc, hs]

/-- Witness for C4 (amended) at concrete states: the scaling equation at
the dense state, the passthrough at a scale-free state, and the sparse
values at the sparse state. -/
theorem reward_scaling_witness :
    (denseState.rewardScale = some 1
      ∧ reward denseState = rewardUnscaled denseState * ((1 : ℝ) / 2.25))
    ∧ (sparseState.rewardShaping = false
      ∧ sparseState.rewardScale = some 1
      ∧ reward sparseState = if check_success sparseState then (1 : ℝ) else 0) :=
  ⟨⟨rfl, (reward_scaling denseState).1 1 rfl⟩,
   ⟨rfl, rfl, (reward_scaling sparseState).2.2 1 rfl rfl⟩⟩

set_option linter.unusedVariables false in
/-- C5: for draws in [-0.5, 0.5], the randomized table offset equals the
base offset plus `(dx, dy, 0)`, and its z-component stays exactly 0.8. -/
theorem randomized_table_offset_z (dx dy : ℝ)
    (hx1 : -0.5 ≤ dx) (hx2 : dx ≤ 0.5) (hy1 : -0.5 ≤ dy) (hy2 : dy ≤ 0.5) :
    apply_random_table_transformations dx dy = Vec3.add table_offset ⟨dx, dy, 0⟩
    ∧ (apply_random_table_transformations dx dy).z = 0.8 :=
  ⟨rfl, by simp [apply_random_table_transformations, Vec3.add, table_offset]⟩

/-- Witness for C5 at the draws `dx = 0.25`, `dy = -0.3`. -/
theorem randomized_table_offset_z_witness :
    (-(0.5 : ℝ) ≤ 0.25 ∧ (0.25 : ℝ) ≤ 0.5 ∧ -(0.5 : ℝ) ≤ -0.3 ∧ (-0.3 : ℝ) ≤ 0.5)
    ∧ (apply_random_table_transformations 0.25 (-0.3)).z = 0.8 :=
  ⟨by norm_num,
   (randomized_table_offset_z 0.25 (-0.3) (by norm_num) (by norm_num)
      (by norm_num) (by norm_num)).2⟩

set_option linter.unusedVariables false in
/-- C6: for a drawn angle in [0, 2*pi), the rotation step builds the
axis-angle vector `(theta, 0, 0)` — angle in the first component — and
passes exactly that vector to the axis-angle-to-quaternion conversion
before setting the table body orientation; for a nonzero angle this vector
is not the z-axis encoding `(0, 0, theta)`. -/
theorem rotation_angle_in_first_component {Q : Type} (f : Vec3 → Q)
    (g : Q → String) (theta : ℝ) (arena : Arena) (b : XmlBody)
    (h0 : 0 ≤ theta) (h1 : theta < 2 * Real.pi)
    (hb : arena.tableBody = some b) :
    rotationAxisAngle theta = ⟨theta, 0, 0⟩
    ∧ (apply_random_table_rotation f g theta arena).tableBody
        = some (b.setAttr "quat" (g (f ⟨theta, 0, 0⟩)))
    ∧ (theta ≠ 0 → rotationAxisAngle theta ≠ (⟨0, 0, theta⟩ : Vec3)) := by
  refine ⟨rfl, ?_, ?_⟩
  · simp [apply_random_table_rotation, hb, rotationAxisAngle]
  · intro hth heq
    exact hth (congrArg Vec3.x heq)

/-- Witness for C6 at angle 1 on a concrete arena with a table body. -/
theorem rotation_angle_in_first_component_witness :
    ((0 : ℝ) ≤ 1 ∧ (1 : ℝ) < 2 * Real.pi ∧ arenaWithTable.tableBody = some posBody)
    ∧ ((apply_random_table_rotation (fun _ : Vec3 => ()) (fun _ : Unit => "1 0 0 0")
          1 arenaWithTable).tableBody
        = some (posBody.setAttr "quat" "1 0 0 0")
      ∧ ((1 : ℝ) ≠ 0 → rotationAxisAngle 1 ≠ (⟨0, 0, 1⟩ : Vec3))) :=
  ⟨⟨by norm_num, by nlinarith [Real.pi_gt_three], rfl⟩,
   (rotation_angle_in_first_component (fun _ : Vec3 => ()) (fun _ : Unit => "1 0 0 0")
      1 arenaWithTable posBody (by norm_num) (by nlinarith [Real.pi_gt_three]) rfl).2⟩

/-- C7: the material customization step either appends the texture-less
white material and points the table visual at `"white_table_mat"` (flag
true), or appends the cereal texture plus its 3x3-tiled material and points
the table visual at `"cereal_table_mat"` (flag false); the material
reference is always exactly one of the two names, never both. -/
theorem customize_material_branches (arena : Arena) :
    ((customize_table_material true arena).asset = arena.asset ++ [white_mat_element]
      ∧ (customize_table_material true arena).tableVisual.attrs "material"
          = some "white_table_mat"
      ∧ white_mat_element.attrib.lookup "texture" = none)
    ∧ ((customize_table_material false arena).asset
          = arena.asset ++ [cereal_tex_element, cereal_mat_element]
      ∧ (customize_table_material false arena).tableVisual.attrs "material"
          = some "cereal_table_mat"
      ∧ cereal_mat_element.attrib.lookup "texrepeat" = some "3 3"
      ∧ cereal_mat_element.attrib.lookup "texture" = some "tex-cereal-table")
    ∧ (∀ u : Bool, (customize_table_material u arena).tableVisual.attrs "material"
        = some (if u then "white_table_mat" else "cereal_table_mat")) := by
  refine ⟨⟨rfl, ?_, by decide⟩, ⟨rfl, ?_, by decide, by decide⟩, ?_⟩
  · simp [customize_table_material, XmlBody.setAttr]
  · simp [customize_table_material, XmlBody.setAttr]
  · intro u
    cases u <;> simp [customize_table_material, XmlBody.setAttr]

/-- C8: during model loading, a caller-supplied placement initializer is
reused by calling `reset()` then `add_objects` with the object list;
otherwise a default `UniformRandomSampler` is built with x and y ranges
[-0.2, 0.2], unconstrained rotation, z-offset 0.01, the boundary-in-range
requirement disabled, and the randomized table offset as reference
position. -/
theorem placement_initializer_policy (objs : List String) (off : Vec3) :
    setup_placement_initializer true objs off
        = Sum.inl [SamplerOp.reset, SamplerOp.addObjects objs]
    ∧ ∃ smp : UniformRandomSampler,
        setup_placement_initializer false objs off = Sum.inr smp
        ∧ smp.xRange = (-0.2, 0.2) ∧ smp.yRange = (-0.2, 0.2)
        ∧ smp.rotationArg = none ∧ smp.zOffset = 0.01
        ∧ smp.ensureObjectBoundaryInRange = false
        ∧ smp.referencePos = off ∧ smp.mujocoObjects = objs :=
  ⟨rfl, ⟨_, rfl, rfl, rfl, rfl, rfl, rfl, rfl, rfl⟩⟩

/-- C9: the rotation step only sets the table body's `"quat"` attribute:
the `"pos"` attribute and every other attribute are unchanged, as are the
arena asset list and the table visual. -/
theorem rotation_mutates_only_quat {Q : Type} (f : Vec3 → Q) (g : Q → String)
    (theta : ℝ) (arena : Arena) (b : XmlBody)
    (hb : arena.tableBody = some b) :
    ∃ bNew : XmlBody,
      (apply_random_table_rotation f g theta arena).tableBody = some bNew
      ∧ bNew.attrs "pos" = b.attrs "pos"
      ∧ (∀ k : String, k ≠ "quat" → bNew.attrs k = b.attrs k)
      ∧ (apply_random_table_rotation f g theta arena).asset = arena.asset
      ∧ (apply_random_table_rotation f g theta arena).tableVisual
          = arena.tableVisual := by
  refine ⟨b.setAttr "quat" (g (f (rotationAxisAngle theta))), ?_, ?_, ?_, ?_, ?_⟩
  · simp [apply_random_table_rotation, hb]
  · simp [XmlBody.setAttr]
  · intro k hk
    simp [XmlBody.setAttr, hk]
  · simp [apply_random_table_rotation, hb]
  · simp [apply_random_table_rotation, hb]

/-- Witness for C9 at angle 1 on a concrete arena with a table body. -/
theorem rotation_mutates_only_quat_witness :
    arenaWithTable.tableBody = some posBody
    ∧ ∃ bNew : XmlBody,
        (apply_random_table_rotation (fun _ : Vec3 => ()) (fun _ : Unit => "1 0 0 0")
            1 arenaWithTable).tableBody = some bNew
        ∧ bNew.attrs "pos" = posBody.attrs "pos"
        ∧ (∀ k : String, k ≠ "quat" → bNew.attrs k = posBody.attrs k)
        ∧ (apply_random_table_rotation (fun _ : Vec3 => ()) (fun _ : Unit => "1 0 0 0")
            1 arenaWithTable).asset = arenaWithTable.asset
        ∧ (apply_random_table_rotation (fun _ : Vec3 => ()) (fun _ : Unit => "1 0 0 0")
            1 arenaWithTable).tableVisual = arenaWithTable.tableVisual :=
  ⟨rfl, rotation_mutates_only_quat (fun _ : Vec3 => ()) (fun _ : Unit => "1 0 0 0")
      1 arenaWithTable posBody rfl⟩

/-- C10: the robot base position is computed by applying the host-provided
base-offset map to the hard-coded constant 0.8, so it is independent of the
configured table_full_size. -/
theorem robot_base_xpos_independent (f : ℝ → Vec3) (s1 s2 : ℝ × ℝ × ℝ) :
    robot_base_xpos f s1 = f 0.8 ∧ robot_base_xpos f s1 = robot_base_xpos f s2 :=
  ⟨rfl, rfl⟩
